import Mathlib

/-!
Verification of the record-reconciliation core of the rugby-data scraper.

The Python sources are shallowly embedded as Lean definitions:

* `scraper/espn_api.py`    — `calculate_minutes` (Minutes Calculator, ESPN side),
  together with the substitution-event scan it performs.
* `scraper/sky_sports.py`  — `calculate_appearances` (Minutes Calculator, Sky side).
* `scraper/espn_all_leagues.py` — `deduplicate_matches` (Match Deduplicator, two
  passes) and `deduplicate_appearances` (Appearance Filter).
* `scraper/main.py`        — `normalize_team`, `normalize_name` (Name Normalizer)
  and the two pure halves of `merge_data` (Cross-Source Merger).

Python strings are Lean `String`s; the string primitives used by the code
(`str.strip`, `str.lower`, `int(...)`, slicing, `sorted`) are modelled by
structural recursion over `String.data` so that every definition reduces in the
kernel.  Python dicts that are only used for ordered key→value storage are
modelled as association lists (`List (κ × α)`) which preserve insertion order
exactly as CPython dicts do; `dict.values()` is `List.map (·.2)`.
Fields holding either an `int` or the empty string `""` are `Option Int`
(`none` = `""`).  CSV rows are structures of `String` fields.
-/

/-! ### String primitives (models of the Python built-ins) -/

/-- ASCII whitespace recognizer; models the characters `str.strip()` removes
for the ASCII inputs this pipeline handles. -/
def isSpaceChar (c : Char) : Bool :=
  c = ' ' || c = '\t' || c = '\n' || c = '\r'

/-- Drop leading whitespace characters. -/
def dropLeadingSpace : List Char → List Char
  | [] => []
  | c :: cs => if isSpaceChar c then dropLeadingSpace cs else c :: cs

/-- Model of Python `str.strip()`: drop whitespace at both ends. -/
def trimChars (cs : List Char) : List Char :=
  (dropLeadingSpace ((dropLeadingSpace cs).reverse)).reverse

/-- Model of Python `str.lower()` restricted to ASCII letters (the inputs this
pipeline compares are ASCII team and player names). -/
def lowerChar (c : Char) : Char :=
  if 'A' ≤ c && c ≤ 'Z' then Char.ofNat (c.toNat + 32) else c

/-- Digit accumulator used by `parseIntStr`; fails on any non-digit. -/
def parseNatDigits : List Char → Nat → Option Nat
  | [], acc => some acc
  | c :: cs, acc =>
    if c.isDigit then parseNatDigits cs (acc * 10 + (c.toNat - 48)) else none

/-- Model of Python `int(s)`: optional surrounding whitespace, optional sign,
then a nonempty run of decimal digits; anything else raises (here: `none`). -/
def parseIntStr (s : String) : Option Int :=
  match trimChars s.data with
  | [] => none
  | '-' :: rest =>
    if rest = [] then none else (parseNatDigits rest 0).map (fun n => -(n : Int))
  | '+' :: rest =>
    if rest = [] then none else (parseNatDigits rest 0).map (fun n => (n : Int))
  | cs => (parseNatDigits cs 0).map (fun n => (n : Int))

/-- Does the first list start with the second? -/
def startsWithChars : List Char → List Char → Bool
  | _, [] => true
  | [], _ :: _ => false
  | h :: hs, n :: ns => h = n && startsWithChars hs ns

/-- Model of Python `needle in hay` for strings (contiguous substring test). -/
def hasSubChars : List Char → List Char → Bool
  | [], needle => needle.isEmpty
  | h :: t, needle => startsWithChars (h :: t) needle || hasSubChars t needle

/-- Lexicographic `≤` on strings by code point, as Python's `sorted` uses. -/
def charsLe : List Char → List Char → Bool
  | [], _ => true
  | _ :: _, [] => false
  | a :: as, b :: bs => if a = b then charsLe as bs else decide (a < b)

/-- `main.normalize_team`: `name.strip().lower()`. -/
def normalize_team (name : String) : String :=
  ⟨(trimChars name.data).map lowerChar⟩

/-- `main.normalize_name`: `name.strip().lower().replace("'", "'")`.  Both
arguments of the source's `replace` are the ASCII apostrophe 0x27 (the file
holds no non-ASCII byte), so the replace maps the ASCII apostrophe to itself —
a no-op, kept here verbatim: the function is extensionally strip + case-fold
and never folds apostrophe glyph variants such as U+2019. -/
def normalize_name (name : String) : String :=
  ⟨((trimChars name.data).map lowerChar).map
    (fun c => if c = Char.ofNat 39 then Char.ofNat 39 else c)⟩

/-- Spec-side reading of §4.5 for player names, for comparison with the
source's `normalize_name`: strip, case-fold, and additionally fold the
differing-apostrophe glyph (U+2019) to the ASCII apostrophe so that two
visually-equivalent names compare equal.  The program does not implement the
glyph folding. -/
def normalize_name_folded (name : String) : String :=
  ⟨((trimChars name.data).map lowerChar).map
    (fun c => if c = Char.ofNat 8217 then Char.ofNat 39 else c)⟩

/-- First-match lookup in an association list; models `dict.get` /
`key in dict` on a dict represented in insertion order. -/
def lookupKey {κ α : Type} [DecidableEq κ] : List (κ × α) → κ → Option α
  | [], _ => none
  | kv :: rest, key => if key = kv.1 then some kv.2 else lookupKey rest key

/-- In-place value replacement for an existing key; models `d[key] = v` on a
dict that already holds `key` (position in insertion order is kept). -/
def replaceKey {κ α : Type} [DecidableEq κ] (l : List (κ × α)) (key : κ) (v : α) :
    List (κ × α) :=
  l.map (fun kv => if kv.1 = key then (kv.1, v) else kv)

/-! ### Minutes Calculator, ESPN side (`espn_api.calculate_minutes`) -/

/-- One athlete attached to a match event (`athletesInvolved` entry). -/
structure EventAthlete where
  id : String
  name : String
  position : String
deriving DecidableEq, Repr

/-- One event of the match timeline as built by `parse_scoreboard_event`. -/
structure MatchEvent where
  type : String
  minute : String
  team_id : String
  athletes : List EventAthlete
deriving DecidableEq, Repr

/-- The match descriptor handed to `calculate_minutes` (the fields it reads). -/
structure MatchInfo where
  season : String
  date : String
  home_team : String
  away_team : String
  match_events : List MatchEvent
deriving DecidableEq, Repr

/-- One roster entry as built by `get_match_roster`. -/
structure Player where
  id : String
  name : String
  jersey : String
  position : String
deriving DecidableEq, Repr

/-- The appearance dict produced by the Minutes Calculator.  `sub_minute_off`
and `sub_minute_on` hold either an `int` or `""` in Python, so `Option Int`
here (`none` = `""`); note the code also stores the literal int `0` into
`sub_minute_on` for starters, which is `some 0`, distinct from `none`. -/
structure Appearance where
  season : String
  date : String
  home_team : String
  away_team : String
  team : String
  player_name : String
  shirt_number : String
  position : String
  is_starter : Bool
  sub_minute_off : Option Int
  sub_minute_on : Option Int
  minutes_played : Int
  source : String
deriving DecidableEq, Repr

/-- Marker test for "came on" events: `"substitute on" in etype or "sub on" in
etype` on the lower-cased event type. -/
def subOnMarker (etype : String) : Bool :=
  hasSubChars (etype.data.map lowerChar) "substitute on".data ||
  hasSubChars (etype.data.map lowerChar) "sub on".data

/-- Marker test for "went off" events. -/
def subOffMarker (etype : String) : Bool :=
  hasSubChars (etype.data.map lowerChar) "substitute off".data ||
  hasSubChars (etype.data.map lowerChar) "sub off".data

/-- Point update of a finite map represented as a function. -/
def updateFun (f : String → Option Int) (k : String) (v : Int) :
    String → Option Int :=
  fun x => if x = k then some v else f x

/-- The inner athlete loop of the event scan: record the parsed minute for
each athlete of a substitution event ("on" checked before "off", as in the
`if`/`elif`). -/
def subMapsAthleteStep (etype : String) (m : Int)
    (maps2 : (String → Option Int) × (String → Option Int))
    (ath : EventAthlete) : (String → Option Int) × (String → Option Int) :=
  if subOnMarker etype then (updateFun maps2.1 ath.id m, maps2.2)
  else if subOffMarker etype then (maps2.1, updateFun maps2.2 ath.id m)
  else maps2

/-- The outer event loop of the event scan: events with an unparseable minute
are skipped entirely (`except: continue`). -/
def subMapsEventStep (maps : (String → Option Int) × (String → Option Int))
    (ev : MatchEvent) : (String → Option Int) × (String → Option Int) :=
  match parseIntStr ev.minute with
  | none => maps
  | some m => ev.athletes.foldl (subMapsAthleteStep ev.type m) maps

/-- The event scan of `calculate_minutes`: builds `(sub_on_events,
sub_off_events)`; later events overwrite earlier ones exactly as the dict
assignments do. -/
def subMapsOf (events : List MatchEvent) :
    (String → Option Int) × (String → Option Int) :=
  events.foldl subMapsEventStep (fun _ => none, fun _ => none)

/-- `jersey_num`: `int(jersey)` with `ValueError`/`TypeError` degraded to 0. -/
def jerseyNumOf (jersey : String) : Int :=
  (parseIntStr jersey).getD 0

/-- `is_starter = 1 <= jersey_num <= 15`. -/
def isStarterJersey (jersey : String) : Bool :=
  decide (1 ≤ jerseyNumOf jersey ∧ jerseyNumOf jersey ≤ 15)

/-- The loop body of `calculate_minutes` for one roster entry, given the
substitution maps `(sub_on_events, sub_off_events)`. -/
def mkEspnAppearance (info : MatchInfo)
    (maps : (String → Option Int) × (String → Option Int))
    (team_name : String) (p : Player) : Appearance :=
  if isStarterJersey p.jersey then
    match maps.2 p.id with
    | some m =>
      { season := info.season, date := info.date, home_team := info.home_team,
        away_team := info.away_team, team := team_name, player_name := p.name,
        shirt_number := p.jersey, position := p.position, is_starter := true,
        sub_minute_off := some m, sub_minute_on := some 0, minutes_played := m,
        source := "espn" }
    | none =>
      { season := info.season, date := info.date, home_team := info.home_team,
        away_team := info.away_team, team := team_name, player_name := p.name,
        shirt_number := p.jersey, position := p.position, is_starter := true,
        sub_minute_off := none, sub_minute_on := some 0, minutes_played := 80,
        source := "espn" }
  else
    match maps.1 p.id with
    | some m =>
      { season := info.season, date := info.date, home_team := info.home_team,
        away_team := info.away_team, team := team_name, player_name := p.name,
        shirt_number := p.jersey, position := p.position, is_starter := false,
        sub_minute_off := none, sub_minute_on := some m,
        minutes_played := 80 - m, source := "espn" }
    | none =>
      { season := info.season, date := info.date, home_team := info.home_team,
        away_team := info.away_team, team := team_name, player_name := p.name,
        shirt_number := p.jersey, position := p.position, is_starter := false,
        sub_minute_off := none, sub_minute_on := none, minutes_played := 0,
        source := "espn" }

/-- `espn_api.calculate_minutes`: one appearance per roster entry, iterating
the `rosters` dict (team name → players) in insertion order. -/
def calculate_minutes (info : MatchInfo)
    (rosters : List (String × List Player)) : List Appearance :=
  rosters.flatMap
    (fun tp => tp.2.map (mkEspnAppearance info (subMapsOf info.match_events) tp.1))

/-! ### Minutes Calculator, Sky side (`sky_sports.calculate_appearances`) -/

/-- One player entry as built by `parse_teams_page` (sub minutes already
extracted from the HTML; `None` = `none`). -/
structure SkyPlayer where
  jersey : String
  name : String
  is_starter : Bool
  sub_minute_off : Option Int
  sub_minute_on : Option Int
deriving DecidableEq, Repr

/-- The match descriptor fields `calculate_appearances` reads. -/
structure SkyMatchInfo where
  date : String
  home_team : String
  away_team : String
deriving DecidableEq, Repr

/-- The loop body of `calculate_appearances` for one player. -/
def mkSkyAppearance (info : SkyMatchInfo) (season team_name : String)
    (p : SkyPlayer) : Appearance :=
  if p.is_starter then
    match p.sub_minute_off with
    | some m =>
      { season := season, date := info.date, home_team := info.home_team,
        away_team := info.away_team, team := team_name, player_name := p.name,
        shirt_number := p.jersey, position := "", is_starter := true,
        sub_minute_off := some m, sub_minute_on := some 0, minutes_played := m,
        source := "sky_sports" }
    | none =>
      { season := season, date := info.date, home_team := info.home_team,
        away_team := info.away_team, team := team_name, player_name := p.name,
        shirt_number := p.jersey, position := "", is_starter := true,
        sub_minute_off := none, sub_minute_on := some 0, minutes_played := 80,
        source := "sky_sports" }
  else
    match p.sub_minute_on with
    | some m =>
      { season := season, date := info.date, home_team := info.home_team,
        away_team := info.away_team, team := team_name, player_name := p.name,
        shirt_number := p.jersey, position := "", is_starter := false,
        sub_minute_off := none, sub_minute_on := some m,
        minutes_played := 80 - m, source := "sky_sports" }
    | none =>
      { season := season, date := info.date, home_team := info.home_team,
        away_team := info.away_team, team := team_name, player_name := p.name,
        shirt_number := p.jersey, position := "", is_starter := false,
        sub_minute_off := none, sub_minute_on := none, minutes_played := 0,
        source := "sky_sports" }

/-- `sky_sports.calculate_appearances` (the `is_starter` key is always set by
`parse_teams_page`, so the `.get` default never fires). -/
def calculate_appearances (info : SkyMatchInfo)
    (teams_data : List (String × List SkyPlayer)) (season : String) :
    List Appearance :=
  teams_data.flatMap (fun tp => tp.2.map (mkSkyAppearance info season tp.1))

/-! ### Match Deduplicator (`espn_all_leagues.deduplicate_matches`) -/

/-- One pooled match record (one CSV row / scraped dict); every field is a
string, missing values are `""`. -/
structure MatchRecord where
  season : String
  tournament : String
  date : String
  home_team : String
  away_team : String
  home_score : String
  away_score : String
  venue : String
  espn_match_id : String
deriving DecidableEq, Repr

/-- The tournament-priority table (`priority.get(t, 99)`). -/
def priorityOf (t : String) : Nat :=
  if t = "Six Nations" then 1
  else if t = "Rugby Championship / Tri Nations" then 1
  else if t = "Rugby World Cup" then 1
  else if t = "British & Irish Lions" then 1
  else if t = "2020 Tri Nations" then 1
  else if t = "International Test Match" then 2
  else 99

/-- The Pass-2 structural signature:
`(match.get("date","")[:10], tuple(sorted([home_team, away_team])))`.
Note the team names enter the signature raw — no `normalize_team` here. -/
def matchSig (m : MatchRecord) : List Char × String × String :=
  (m.date.data.take 10,
   if charsLe m.home_team.data m.away_team.data then (m.home_team, m.away_team)
   else (m.away_team, m.home_team))

/-- Pass-1 step: fold body of the `seen_ids` loop (dict keyed by
`espn_match_id`; on a repeat id the better-priority record replaces the value
in place). -/
def pass1Step (seen : List (String × MatchRecord)) (m : MatchRecord) :
    List (String × MatchRecord) :=
  match lookupKey seen m.espn_match_id with
  | none => seen ++ [(m.espn_match_id, m)]
  | some ex =>
    if priorityOf m.tournament < priorityOf ex.tournament then
      replaceKey seen m.espn_match_id m
    else seen

/-- Pass 1 of `deduplicate_matches`: `seen_ids.values()` after the id loop. -/
def pass1 (ms : List MatchRecord) : List MatchRecord :=
  (ms.foldl pass1Step []).map (·.2)

/-- Pass-2 step: fold body of the signature loop over `(sig_seen, result)`.
The Python replacement filters `result` by object identity (`is not`); the
Pass-1 survivors are pairwise distinct records (distinct `espn_match_id`s), so
identity coincides with structural inequality here. -/
def pass2Step (st : List ((List Char × String × String) × MatchRecord) × List MatchRecord)
    (m : MatchRecord) :
    List ((List Char × String × String) × MatchRecord) × List MatchRecord :=
  match lookupKey st.1 (matchSig m) with
  | none => (st.1 ++ [(matchSig m, m)], st.2 ++ [m])
  | some ex =>
    if priorityOf m.tournament < priorityOf ex.tournament then
      (replaceKey st.1 (matchSig m) m,
       (st.2.filter (fun r => decide (r ≠ ex))) ++ [m])
    else st

/-- Pass 2 of `deduplicate_matches`: the `result` list after the sig loop. -/
def pass2 (ms : List MatchRecord) : List MatchRecord :=
  (ms.foldl pass2Step ([], [])).2

/-- `espn_all_leagues.deduplicate_matches`: id-based pass then structural
fallback pass. -/
def deduplicate_matches (ms : List MatchRecord) : List MatchRecord :=
  pass2 (pass1 ms)

/-! ### Appearance Filter (`espn_all_leagues.deduplicate_appearances`) -/

/-- One combined-CSV appearance row (all fields strings). -/
structure AppearanceRow where
  season : String
  tournament : String
  date : String
  home_team : String
  away_team : String
  team : String
  player_name : String
  shirt_number : String
  position : String
  is_starter : String
  sub_minute_off : String
  sub_minute_on : String
  minutes_played : String
  espn_match_id : String
  source : String
deriving DecidableEq, Repr

/-- The duplicate key `(eid, player_name, team)`. -/
def appKey (a : AppearanceRow) : String × String × String :=
  (a.espn_match_id, a.player_name, a.team)

/-- The loop of `deduplicate_appearances` with its `seen` set of keys. -/
def deduplicate_appearances_go (valid : List String) :
    List AppearanceRow → List (String × String × String) → List AppearanceRow
  | [], _ => []
  | a :: rest, seen =>
    if a.espn_match_id ∈ valid then
      if appKey a ∈ seen then deduplicate_appearances_go valid rest seen
      else a :: deduplicate_appearances_go valid rest (appKey a :: seen)
    else deduplicate_appearances_go valid rest seen

/-- `espn_all_leagues.deduplicate_appearances(all_appearances,
valid_match_ids)` — the id set is modelled as a list with membership. -/
def deduplicate_appearances (apps : List AppearanceRow) (valid : List String) :
    List AppearanceRow :=
  deduplicate_appearances_go valid apps []

/-- Spec-side reading of §4.3: first drop the rows whose id is not canonical. -/
def filterValidApps (apps : List AppearanceRow) (valid : List String) :
    List AppearanceRow :=
  apps.filter (fun a => decide (a.espn_match_id ∈ valid))

/-- Spec-side reading of §4.3: drop exact duplicates under `appKey`, keeping
the first occurrence. -/
def dedupFirstByKey :
    List AppearanceRow → List (String × String × String) → List AppearanceRow
  | [], _ => []
  | a :: rest, seen =>
    if appKey a ∈ seen then dedupFirstByKey rest seen
    else a :: dedupFirstByKey rest (appKey a :: seen)

/-- Spec-side composite: filter to canonical ids, then first-occurrence dedup. -/
def filterThenDedupSpec (apps : List AppearanceRow) (valid : List String) :
    List AppearanceRow :=
  dedupFirstByKey (filterValidApps apps valid) []

/-! ### Cross-Source Merger (`main.merge_data`, pure cores) -/

/-- One `espn_matches.csv` row as read back by `merge_data`. -/
structure EspnMatchRow where
  season : String
  date : String
  home_team : String
  away_team : String
  home_score : String
  away_score : String
  venue : String
  espn_match_id : String
deriving DecidableEq, Repr

/-- One `sky_matches.csv` row. -/
structure SkyMatchRow where
  season : String
  date : String
  home_team : String
  away_team : String
  home_score : String
  away_score : String
  sky_match_id : String
  slug : String
deriving DecidableEq, Repr

/-- One row of the final merged match table. -/
structure FinalMatchRow where
  season : String
  date : String
  home_team : String
  away_team : String
  home_score : String
  away_score : String
  venue : String
  espn_match_id : String
  sky_match_id : String
deriving DecidableEq, Repr

/-- Seeding of the output with an ESPN match (`sky_match_id` left empty). -/
def seedFinalRow (m : EspnMatchRow) : FinalMatchRow :=
  { season := m.season, date := m.date, home_team := m.home_team,
    away_team := m.away_team, home_score := m.home_score,
    away_score := m.away_score, venue := m.venue,
    espn_match_id := m.espn_match_id, sky_match_id := "" }

/-- The appended row for a Sky match with no key match (`espn_match_id` and
`venue` empty). -/
def skyFinalRow (sm : SkyMatchRow) : FinalMatchRow :=
  { season := sm.season, date := sm.date, home_team := sm.home_team,
    away_team := sm.away_team, home_score := sm.home_score,
    away_score := sm.away_score, venue := "", espn_match_id := "",
    sky_match_id := sm.sky_match_id }

/-- The match-table key comparison of `merge_data`: normalized team names and
raw season equality. -/
def matchKeyMatches (fm : FinalMatchRow) (sm : SkyMatchRow) : Bool :=
  decide (normalize_team fm.home_team = normalize_team sm.home_team) &&
  decide (normalize_team fm.away_team = normalize_team sm.away_team) &&
  decide (fm.season = sm.season)

/-- Scan for the first key-matching row and backfill `sky_match_id` into it
(`break` after the first hit); `none` when no row matches. -/
def backfillSkyId : List FinalMatchRow → SkyMatchRow → Option (List FinalMatchRow)
  | [], _ => none
  | fm :: rest, sm =>
    if matchKeyMatches fm sm then
      some ({ fm with sky_match_id := sm.sky_match_id } :: rest)
    else (backfillSkyId rest sm).map (fm :: ·)

/-- One iteration of the Sky loop of `merge_data`: backfill into the first
matching row, or append a Sky-only row. -/
def applySkyMatch (rows : List FinalMatchRow) (sm : SkyMatchRow) :
    List FinalMatchRow :=
  match backfillSkyId rows sm with
  | some rows2 => rows2
  | none => rows ++ [skyFinalRow sm]

/-- The match-table half of `merge_data` (before the final sort): seed with
every ESPN match, then fold the Sky matches through `applySkyMatch`. -/
def merge_data_matches (espn : List EspnMatchRow) (sky : List SkyMatchRow) :
    List FinalMatchRow :=
  sky.foldl applySkyMatch (espn.map seedFinalRow)

/-- One appearance CSV row as read back by `merge_data` (all fields strings). -/
structure MergeAppearanceRow where
  season : String
  date : String
  home_team : String
  away_team : String
  team : String
  player_name : String
  shirt_number : String
  position : String
  is_starter : String
  sub_minute_off : String
  sub_minute_on : String
  minutes_played : String
  source : String
deriving DecidableEq, Repr

/-- The `has_espn` test of `merge_data`: some ESPN appearance is tagged
`source == "espn"` and agrees on normalized teams, raw season, and normalized
player name. -/
def espnHasEquivalent (espn : List MergeAppearanceRow)
    (sa : MergeAppearanceRow) : Bool :=
  espn.any (fun a =>
    decide (a.source = "espn") &&
    decide (normalize_team a.home_team = normalize_team sa.home_team) &&
    decide (normalize_team a.away_team = normalize_team sa.away_team) &&
    decide (a.season = sa.season) &&
    decide (normalize_name a.player_name = normalize_name sa.player_name))

/-- The appearance-table half of `merge_data`: all ESPN rows, then the Sky
rows with no ESPN equivalent, in order. -/
def merge_data_appearances (espn sky : List MergeAppearanceRow) :
    List MergeAppearanceRow :=
  espn ++ sky.filter (fun sa => !espnHasEquivalent espn sa)

/-- The §4.4 appearance matching key
`(normalized home_team, normalized away_team, season, normalized player_name)`. -/
def appMergeKey (a : MergeAppearanceRow) : String × String × String × String :=
  (normalize_team a.home_team, normalize_team a.away_team, a.season,
   normalize_name a.player_name)

/-! ### Concrete inputs used by the witness and counterexample theorems -/

/-- A starter subbed off at 63 and a replacement brought on at 63. -/
def c1EspnEvents : List MatchEvent :=
  [{ type := "Substitute Off", minute := "63", team_id := "t1",
     athletes := [{ id := "pid9", name := "Nine", position := "SH" }] },
   { type := "Substitute On", minute := "63", team_id := "t1",
     athletes := [{ id := "pid21", name := "TwentyOne", position := "FH" }] }]

def c1EspnInfo : MatchInfo :=
  { season := "2000-01", date := "2001-02-03", home_team := "England",
    away_team := "Wales", match_events := c1EspnEvents }

def c1P9 : Player := { id := "pid9", name := "Nine", jersey := "9", position := "SH" }

def c1Rosters : List (String × List Player) := [("England", [c1P9])]

def c1SkyInfo : SkyMatchInfo :=
  { date := "", home_team := "England", away_team := "Wales" }

def c1SkyP : SkyPlayer :=
  { jersey := "21", name := "SubGuy", is_starter := false,
    sub_minute_off := none, sub_minute_on := some 63 }

def c1SkyTeams : List (String × List SkyPlayer) := [("England", [c1SkyP])]

/-- A starter (shirt 1) with a recorded off-substitution at minute 60. -/
def c4Info : MatchInfo :=
  { season := "2023", date := "2023-09-08", home_team := "France",
    away_team := "New Zealand",
    match_events :=
      [{ type := "Substitute Off", minute := "60", team_id := "t1",
         athletes := [{ id := "p1", name := "Cap", position := "LP" }] }] }

def c4Roster : List (String × List Player) :=
  [("France", [{ id := "p1", name := "Cap", jersey := "1", position := "LP" }])]

def c4wInfo : MatchInfo :=
  { season := "2021", date := "2021-07-24", home_team := "South Africa",
    away_team := "British & Irish Lions", match_events := [] }

def c4wRoster : List (String × List Player) :=
  [("South Africa", [{ id := "q16", name := "Bench", jersey := "16", position := "HK" }])]

def c4wSkyInfo : SkyMatchInfo :=
  { date := "", home_team := "Ireland", away_team := "Scotland" }

def c4wSkyP : SkyPlayer :=
  { jersey := "10", name := "FlyHalf", is_starter := true,
    sub_minute_off := some 55, sub_minute_on := none }

def c4wSkyTeams : List (String × List SkyPlayer) := [("Ireland", [c4wSkyP])]

/-- Out-of-range substitution minutes: a replacement on at 85 (yields 80-85)
and a starter off at 95 (yields 95). -/
def c5Info : MatchInfo :=
  { season := "2019", date := "2019-03-16", home_team := "Wales",
    away_team := "Ireland",
    match_events :=
      [{ type := "Substitute On", minute := "85", team_id := "t2",
         athletes := [{ id := "x16", name := "LateSub", position := "PR" }] },
       { type := "Substitute Off", minute := "95", team_id := "t1",
         athletes := [{ id := "x2", name := "LongGame", position := "HK" }] }] }

def c5Roster : List (String × List Player) :=
  [("Wales", [{ id := "x2", name := "LongGame", jersey := "2", position := "HK" },
              { id := "x16", name := "LateSub", jersey := "16", position := "PR" }])]

def c5wInfo : MatchInfo :=
  { season := "2019", date := "2019-03-16", home_team := "Wales",
    away_team := "Ireland",
    match_events :=
      [{ type := "Substitute On", minute := "63", team_id := "t2",
         athletes := [{ id := "y16", name := "Fresh", position := "PR" }] }] }

def c5wRoster : List (String × List Player) :=
  [("Wales", [{ id := "y16", name := "Fresh", jersey := "16", position := "PR" }])]

def c5wSkyInfo : SkyMatchInfo :=
  { date := "", home_team := "Italy", away_team := "France" }

def c5wSkyTeams : List (String × List SkyPlayer) :=
  [("Italy", [{ jersey := "15", name := "FullBack", is_starter := true,
                sub_minute_off := some 71, sub_minute_on := none }])]

/-- Same fixture scraped twice; team names differ only by case/whitespace. -/
def c2r1 : MatchRecord :=
  { season := "2022", tournament := "Rugby Championship / Tri Nations",
    date := "2022-08-06", home_team := "New Zealand", away_team := "Australia",
    home_score := "", away_score := "", venue := "", espn_match_id := "espn-1" }

def c2r2 : MatchRecord :=
  { season := "2022", tournament := "International Test Match",
    date := "2022-08-06", home_team := " new zealand", away_team := "australia ",
    home_score := "", away_score := "", venue := "", espn_match_id := "itm-9" }

def c2w1 : MatchRecord :=
  { season := "2015", tournament := "Rugby World Cup", date := "2015-10-31",
    home_team := "New Zealand", away_team := "Australia", home_score := "34",
    away_score := "17", venue := "Twickenham", espn_match_id := "w-1" }

def c2w2 : MatchRecord :=
  { season := "2015", tournament := "International Test Match",
    date := "2015-11-07", home_team := "England", away_team := "Fiji",
    home_score := "", away_score := "", venue := "", espn_match_id := "w-2" }

def c3r1 : MatchRecord :=
  { season := "2022", tournament := "Rugby World Cup", date := "2022-08-06",
    home_team := "New Zealand", away_team := "Australia", home_score := "",
    away_score := "", venue := "", espn_match_id := "espn-1" }

def c3r2 : MatchRecord :=
  { season := "2022", tournament := "International Test Match",
    date := "2022-08-06", home_team := "New Zealand", away_team := "Australia",
    home_score := "", away_score := "", venue := "", espn_match_id := "itm-9" }

/-- Two records that both lack a date but agree on the team pair. -/
def c6r1 : MatchRecord :=
  { season := "2016", tournament := "", date := "", home_team := "Georgia",
    away_team := "Japan", home_score := "", away_score := "", venue := "",
    espn_match_id := "nd-1" }

def c6r2 : MatchRecord :=
  { season := "2016", tournament := "", date := "", home_team := "Georgia",
    away_team := "Japan", home_score := "", away_score := "", venue := "",
    espn_match_id := "nd-2" }

def c6w1 : MatchRecord :=
  { season := "2017", tournament := "", date := "", home_team := "Samoa",
    away_team := "Tonga", home_score := "", away_score := "", venue := "",
    espn_match_id := "w6-1" }

def c6w2 : MatchRecord :=
  { season := "2017", tournament := "", date := "2017-06-10",
    home_team := "Samoa", away_team := "Tonga", home_score := "",
    away_score := "", venue := "", espn_match_id := "w6-2" }

def c6w3 : MatchRecord :=
  { season := "2017", tournament := "", date := "", home_team := "Samoa",
    away_team := "Tonga", home_score := "", away_score := "", venue := "",
    espn_match_id := "w6-3" }

def c7app1 : AppearanceRow :=
  { season := "2019", tournament := "Rugby World Cup", date := "2019-11-02",
    home_team := "England", away_team := "South Africa", team := "England",
    player_name := "Owen Farrell", shirt_number := "10", position := "FH",
    is_starter := "True", sub_minute_off := "", sub_minute_on := "",
    minutes_played := "80", espn_match_id := "m1", source := "espn" }

def c7app2 : AppearanceRow :=
  { season := "2019", tournament := "International Test Match",
    date := "2019-11-02", home_team := "England", away_team := "South Africa",
    team := "England", player_name := "Owen Farrell", shirt_number := "10",
    position := "FH", is_starter := "True", sub_minute_off := "",
    sub_minute_on := "", minutes_played := "80", espn_match_id := "m1",
    source := "espn" }

def c7app3 : AppearanceRow :=
  { season := "2019", tournament := "International Test Match",
    date := "2019-11-02", home_team := "England", away_team := "South Africa",
    team := "England", player_name := "Ben Youngs", shirt_number := "9",
    position := "SH", is_starter := "True", sub_minute_off := "",
    sub_minute_on := "", minutes_played := "80", espn_match_id := "gone",
    source := "espn" }

def c7Apps : List AppearanceRow := [c7app1, c7app2, c7app3]

def c7Valid : List String := ["m1"]

def c8ea : MergeAppearanceRow :=
  { season := "2019-20", date := "2020-02-08", home_team := "England",
    away_team := "Wales", team := "Wales", player_name := "Sam Warburton",
    shirt_number := "7", position := "FL", is_starter := "True",
    sub_minute_off := "", sub_minute_on := "", minutes_played := "80",
    source := "espn" }

def c8sa : MergeAppearanceRow :=
  { season := "2019-20", date := "", home_team := " england",
    away_team := "WALES", team := "Wales", player_name := "sam warburton ",
    shirt_number := "7", position := "", is_starter := "True",
    sub_minute_off := "", sub_minute_on := "", minutes_played := "80",
    source := "sky_sports" }

/-- A player name with the typographic apostrophe U+2019 in place of the
ASCII one, as an HTML-scraped source can deliver it. -/
def c8gSaName : String :=
  ⟨['b', 'r', 'i', 'a', 'n', ' ', 'o', Char.ofNat 8217,
    'd', 'r', 'i', 's', 'c', 'o', 'l', 'l']⟩

def c8gEa : MergeAppearanceRow :=
  { season := "2009-10", date := "2010-03-13", home_team := "Ireland",
    away_team := "Wales", team := "Ireland",
    player_name := "Brian O'Driscoll", shirt_number := "13",
    position := "OC", is_starter := "True", sub_minute_off := "",
    sub_minute_on := "", minutes_played := "80", source := "espn" }

def c8gSa : MergeAppearanceRow :=
  { season := "2009-10", date := "", home_team := "Ireland",
    away_team := "Wales", team := "Ireland", player_name := c8gSaName,
    shirt_number := "13", position := "", is_starter := "True",
    sub_minute_off := "", sub_minute_on := "", minutes_played := "80",
    source := "sky_sports" }

def c10em : EspnMatchRow :=
  { season := "2019-20", date := "2020-02-08", home_team := "England",
    away_team := "Wales", home_score := "33", away_score := "30",
    venue := "Twickenham", espn_match_id := "e-77" }

def c10s1 : SkyMatchRow :=
  { season := "2019-20", date := "", home_team := "England",
    away_team := "Wales", home_score := "33", away_score := "30",
    sky_match_id := "sky-1", slug := "england-vs-wales" }

def c10s2 : SkyMatchRow :=
  { season := "2019-20", date := "", home_team := " England",
    away_team := "wales", home_score := "33", away_score := "30",
    sky_match_id := "sky-2", slug := "england-vs-wales" }

/-! ### Sanity checks for the string models -/

example : normalize_team "  England " = "england" := by decide

example : normalize_name " Brian O'Driscoll " = "brian o'driscoll" := by decide

example : parseIntStr "21" = some 21 ∧ parseIntStr "x" = none ∧
    parseIntStr "" = none ∧ parseIntStr "-3" = some (-3) := by decide

example : charsLe "Australia".data "New Zealand".data = true := by decide

example : subOnMarker "Substitute On" = true ∧ subOnMarker "Substitute Off" = false ∧
    subOffMarker "Substitute Off" = true ∧ subOffMarker "Try" = false := by decide

/-! ### C1: the four minutes-calculation branch rules -/

/-- Claim C1: every roster entry processed by the Minutes Calculator yields an
appearance obeying the four branch rules: a starter with a recorded
off-substitution at parseable minute m gets `minutes_played = m` and
`sub_minute_off = m`; a starter with none gets 80 and an empty
`sub_minute_off`; a non-starter with a recorded on-substitution at minute m
gets `80 - m` and `sub_minute_on = m`; a non-starter with none gets 0 and an
empty `sub_minute_on`.  Stated for both implementations
(`espn_api.calculate_minutes` and `sky_sports.calculate_appearances`). -/
theorem c1_minutes_calculator_rules :
    (∀ (info : MatchInfo) (rosters : List (String × List Player)) (team : String)
        (ps : List Player) (p : Player), (team, ps) ∈ rosters → p ∈ ps →
        ∃ a ∈ calculate_minutes info rosters,
          a.player_name = p.name ∧ a.team = team ∧
          a.is_starter = isStarterJersey p.jersey ∧
          (isStarterJersey p.jersey = true →
            (∀ m : Int, (subMapsOf info.match_events).2 p.id = some m →
              a.minutes_played = m ∧ a.sub_minute_off = some m) ∧
            ((subMapsOf info.match_events).2 p.id = none →
              a.minutes_played = 80 ∧ a.sub_minute_off = none)) ∧
          (isStarterJersey p.jersey = false →
            (∀ m : Int, (subMapsOf info.match_events).1 p.id = some m →
              a.minutes_played = 80 - m ∧ a.sub_minute_on = some m) ∧
            ((subMapsOf info.match_events).1 p.id = none →
              a.minutes_played = 0 ∧ a.sub_minute_on = none))) ∧
    (∀ (sinfo : SkyMatchInfo) (steams : List (String × List SkyPlayer))
        (season team : String) (ps : List SkyPlayer) (p : SkyPlayer),
        (team, ps) ∈ steams → p ∈ ps →
        ∃ a ∈ calculate_appearances sinfo steams season,
          a.player_name = p.name ∧ a.team = team ∧ a.is_starter = p.is_starter ∧
          (p.is_starter = true →
            (∀ m : Int, p.sub_minute_off = some m →
              a.minutes_played = m ∧ a.sub_minute_off = some m) ∧
            (p.sub_minute_off = none →
              a.minutes_played = 80 ∧ a.sub_minute_off = none)) ∧
          (p.is_starter = false →
            (∀ m : Int, p.sub_minute_on = some m →
              a.minutes_played = 80 - m ∧ a.sub_minute_on = some m) ∧
            (p.sub_minute_on = none →
              a.minutes_played = 0 ∧ a.sub_minute_on = none))) := by
  constructor
  · intro info rosters team ps p hteam hp
    refine ⟨mkEspnAppearance info (subMapsOf info.match_events) team p, ?_, ?_⟩
    · simp only [calculate_minutes, List.mem_flatMap]
      exact ⟨(team, ps), hteam, List.mem_map_of_mem _ hp⟩
    · unfold mkEspnAppearance
      cases hst : isStarterJersey p.jersey
      · cases hon : (subMapsOf info.match_events).1 p.id <;> simp [hst, hon]
      · cases hoff : (subMapsOf info.match_events).2 p.id <;> simp [hst, hoff]
  · intro sinfo steams season team ps p hteam hp
    refine ⟨mkSkyAppearance sinfo season team p, ?_, ?_⟩
    · simp only [calculate_appearances, List.mem_flatMap]
      exact ⟨(team, ps), hteam, List.mem_map_of_mem _ hp⟩
    · unfold mkSkyAppearance
      cases hst : p.is_starter
      · cases hon : p.sub_minute_on <;> simp [hst, hon]
      · cases hoff : p.sub_minute_off <;> simp [hst, hoff]

/-- Witness for C1 at concrete inputs: a shirt-9 starter subbed off at 63
(ESPN side) and a shirt-21 replacement brought on at 63 (Sky side). -/
theorem c1_minutes_calculator_rules_witness :
    (("England", [c1P9]) ∈ c1Rosters ∧ c1P9 ∈ [c1P9] ∧
      ("England", [c1SkyP]) ∈ c1SkyTeams ∧ c1SkyP ∈ [c1SkyP]) ∧
    (∃ a ∈ calculate_minutes c1EspnInfo c1Rosters,
      a.player_name = "Nine" ∧ a.minutes_played = 63 ∧ a.sub_minute_off = some 63) ∧
    (∃ a ∈ calculate_appearances c1SkyInfo c1SkyTeams "2014-15",
      a.player_name = "SubGuy" ∧ a.minutes_played = 17 ∧ a.sub_minute_on = some 63) := by
  refine ⟨⟨by decide, by decide, by decide, by decide⟩, ?_, ?_⟩
  · obtain ⟨a, ha, hname, -, -, hs, -⟩ :=
      c1_minutes_calculator_rules.1 c1EspnInfo c1Rosters "England" [c1P9] c1P9
        (by decide) (by decide)
    obtain ⟨hmin, hsub⟩ := (hs (by decide)).1 63 (by decide)
    exact ⟨a, ha, hname, hmin, hsub⟩
  · obtain ⟨a, ha, hname, -, -, -, hn⟩ :=
      c1_minutes_calculator_rules.2 c1SkyInfo c1SkyTeams "2014-15" "England"
        [c1SkyP] c1SkyP (by decide) (by decide)
    obtain ⟨hmin, hsub⟩ := (hn (by decide)).1 63 (by decide)
    refine ⟨a, ha, hname, ?_, hsub⟩
    rw [hmin]; decide

/-! ### C4: which substitution fields can be populated -/

/-- Counterexample to C4 as stated: a starter (shirt 1) subbed off at 60 gets
`sub_minute_off = 60` AND `sub_minute_on = 0` — both fields are populated
(non-empty) at once, because the code always stores the int 0 into
`sub_minute_on` for starters. -/
theorem c4_both_fields_populated_counterexample :
    ∃ a ∈ calculate_minutes c4Info c4Roster,
      a.is_starter = true ∧ a.sub_minute_off = some 60 ∧
      a.sub_minute_on = some 0 := by decide

/-- Claim C4 (amended): per appearance, at most one of the two fields can hold
an actual substitution minute, tied to `is_starter`: a non-starter's
`sub_minute_off` is always empty, and a starter's `sub_minute_on` is always
the literal 0 (a sentinel, never a real on-minute) — so a starter with a
recorded off-substitution has BOTH fields non-empty (the off minute and the
constant 0), contrary to the claim's "never both". -/
theorem c4_sub_minute_fields_rule :
    (∀ (info : MatchInfo) (rosters : List (String × List Player)),
        ∀ a ∈ calculate_minutes info rosters,
          (a.is_starter = false → a.sub_minute_off = none) ∧
          (a.is_starter = true → a.sub_minute_on = some 0)) ∧
    (∀ (sinfo : SkyMatchInfo) (steams : List (String × List SkyPlayer))
        (season : String),
        ∀ a ∈ calculate_appearances sinfo steams season,
          (a.is_starter = false → a.sub_minute_off = none) ∧
          (a.is_starter = true → a.sub_minute_on = some 0)) := by
  constructor
  · intro info rosters a ha
    simp only [calculate_minutes, List.mem_flatMap, List.mem_map] at ha
    obtain ⟨tp, -, p, -, rfl⟩ := ha
    unfold mkEspnAppearance
    cases hst : isStarterJersey p.jersey
    · cases hon : (subMapsOf info.match_events).1 p.id <;> simp [hst, hon]
    · cases hoff : (subMapsOf info.match_events).2 p.id <;> simp [hst, hoff]
  · intro sinfo steams season a ha
    simp only [calculate_appearances, List.mem_flatMap, List.mem_map] at ha
    obtain ⟨tp, -, p, -, rfl⟩ := ha
    unfold mkSkyAppearance
    cases hst : p.is_starter
    · cases hon : p.sub_minute_on <;> simp [hst, hon]
    · cases hoff : p.sub_minute_off <;> simp [hst, hoff]

/-- Witness for the amended C4 at concrete inputs: an unused ESPN replacement
(shirt 16) has `sub_minute_off` empty, and a Sky starter subbed off at 55 has
`sub_minute_on = 0`. -/
theorem c4_sub_minute_fields_rule_witness :
    (∀ a ∈ calculate_minutes c4wInfo c4wRoster, a.sub_minute_off = none) ∧
    (∀ a ∈ calculate_appearances c4wSkyInfo c4wSkyTeams "2019-20",
      a.sub_minute_on = some 0) := by
  constructor
  · intro a ha
    exact (c4_sub_minute_fields_rule.1 c4wInfo c4wRoster a ha).1
      ((by decide :
          ∀ a ∈ calculate_minutes c4wInfo c4wRoster, a.is_starter = false) a ha)
  · intro a ha
    exact (c4_sub_minute_fields_rule.2 c4wSkyInfo c4wSkyTeams "2019-20" a ha).2
      ((by decide :
          ∀ a ∈ calculate_appearances c4wSkyInfo c4wSkyTeams "2019-20",
            a.is_starter = true) a ha)

/-! ### C5: range of `minutes_played` -/

/-- Values stored by the inner athlete loop are either inherited from the
accumulator or equal to the parsed minute of the current event. -/
theorem subMapsAthleteFold_vals (P : Int → Prop) (etype : String) (m0 : Int)
    (hm0 : P m0) :
    ∀ (aths : List EventAthlete)
      (maps2 : (String → Option Int) × (String → Option Int)),
      (∀ pid m, maps2.1 pid = some m → P m) →
      (∀ pid m, maps2.2 pid = some m → P m) →
      (∀ pid m, (aths.foldl (subMapsAthleteStep etype m0) maps2).1 pid = some m → P m) ∧
      (∀ pid m, (aths.foldl (subMapsAthleteStep etype m0) maps2).2 pid = some m → P m)
  | [], maps2, h1, h2 => ⟨h1, h2⟩
  | ath :: aths, maps2, h1, h2 => by
    simp only [List.foldl_cons]
    apply subMapsAthleteFold_vals P etype m0 hm0 aths
    · intro pid m hpid
      unfold subMapsAthleteStep at hpid
      by_cases hon : subOnMarker etype = true
      · simp only [hon, if_true] at hpid
        unfold updateFun at hpid
        by_cases hx : pid = ath.id
        · simp [hx] at hpid; exact hpid ▸ hm0
        · simp [hx] at hpid; exact h1 pid m hpid
      · simp only [hon, if_false] at hpid
        by_cases hoff : subOffMarker etype = true <;> simp [hoff] at hpid <;>
          exact h1 pid m hpid
    · intro pid m hpid
      unfold subMapsAthleteStep at hpid
      by_cases hon : subOnMarker etype = true
      · simp only [hon, if_true] at hpid
        exact h2 pid m hpid
      · simp only [hon, if_false] at hpid
        by_cases hoff : subOffMarker etype = true
        · simp only [hoff, if_true] at hpid
          unfold updateFun at hpid
          by_cases hx : pid = ath.id
          · simp [hx] at hpid; exact hpid ▸ hm0
          · simp [hx] at hpid; exact h2 pid m hpid
        · simp [hoff] at hpid; exact h2 pid m hpid

/-- Every value recorded in the substitution maps is a parsed minute of some
event of the timeline (stated through an arbitrary predicate `P`). -/
theorem subMapsOf_vals (P : Int → Prop) :
    ∀ (events : List MatchEvent)
      (init : (String → Option Int) × (String → Option Int)),
      (∀ ev ∈ events, ∀ m : Int, parseIntStr ev.minute = some m → P m) →
      (∀ pid m, init.1 pid = some m → P m) →
      (∀ pid m, init.2 pid = some m → P m) →
      (∀ pid m, (events.foldl subMapsEventStep init).1 pid = some m → P m) ∧
      (∀ pid m, (events.foldl subMapsEventStep init).2 pid = some m → P m)
  | [], init, _, h1, h2 => ⟨h1, h2⟩
  | ev :: events, init, hev, h1, h2 => by
    simp only [List.foldl_cons]
    apply subMapsOf_vals P events
    · intro e he m hm
      exact hev e (List.mem_cons_of_mem _ he) m hm
    all_goals
      unfold subMapsEventStep
      cases hpm : parseIntStr ev.minute with
      | none => first | exact h1 | exact h2
      | some m0 =>
        have hPm0 : P m0 := hev ev (List.mem_cons_self _ _) m0 hpm
        have := subMapsAthleteFold_vals P ev.type m0 hPm0 ev.athletes init h1 h2
        first | exact this.1 | exact this.2

/-- Counterexample to C5 as stated: with out-of-range recorded minutes the
code produces `minutes_played = 80 - 85 = -5` for a replacement brought on at
85, and `minutes_played = 95` for a starter taken off at 95 — no clamping. -/
theorem c5_minutes_range_counterexample :
    (∃ a ∈ calculate_minutes c5Info c5Roster, a.minutes_played = -5) ∧
    (∃ a ∈ calculate_minutes c5Info c5Roster, a.minutes_played = 95) := by decide

/-- Claim C5 (amended): `0 ≤ minutes_played ≤ 80` holds only under the proviso
that every recorded (parseable) substitution minute lies in `[0, 80]`; the
code performs no clamping, so out-of-range event minutes propagate. -/
theorem c5_minutes_range :
    (∀ (info : MatchInfo) (rosters : List (String × List Player)),
        (∀ ev ∈ info.match_events, ∀ m : Int,
          parseIntStr ev.minute = some m → 0 ≤ m ∧ m ≤ 80) →
        ∀ a ∈ calculate_minutes info rosters,
          0 ≤ a.minutes_played ∧ a.minutes_played ≤ 80) ∧
    (∀ (sinfo : SkyMatchInfo) (steams : List (String × List SkyPlayer))
        (season : String),
        (∀ tp ∈ steams, ∀ p ∈ tp.2,
          (∀ m : Int, p.sub_minute_off = some m → 0 ≤ m ∧ m ≤ 80) ∧
          (∀ m : Int, p.sub_minute_on = some m → 0 ≤ m ∧ m ≤ 80)) →
        ∀ a ∈ calculate_appearances sinfo steams season,
          0 ≤ a.minutes_played ∧ a.minutes_played ≤ 80) := by
  constructor
  · intro info rosters hev a ha
    have hvals := subMapsOf_vals (fun m => 0 ≤ m ∧ m ≤ 80) info.match_events
      (fun _ => none, fun _ => none) hev (by intro _ _ h; cases h)
      (by intro _ _ h; cases h)
    simp only [calculate_minutes, List.mem_flatMap, List.mem_map] at ha
    obtain ⟨tp, -, p, -, rfl⟩ := ha
    unfold mkEspnAppearance
    cases hst : isStarterJersey p.jersey
    · cases hon : (subMapsOf info.match_events).1 p.id with
      | none => simp [hst, hon]
      | some m =>
        have := hvals.1 p.id m hon
        simp only [hst, Bool.false_eq_true, if_false, hon]
        constructor <;> [omega; omega]
    · cases hoff : (subMapsOf info.match_events).2 p.id with
      | none => simp [hst, hoff]
      | some m =>
        have := hvals.2 p.id m hoff
        simp only [hst, if_true, hoff]
        constructor <;> [omega; omega]
  · intro sinfo steams season hp a ha
    simp only [calculate_appearances, List.mem_flatMap, List.mem_map] at ha
    obtain ⟨tp, htp, p, hpp, rfl⟩ := ha
    have hbounds := hp tp htp p hpp
    unfold mkSkyAppearance
    cases hst : p.is_starter
    · cases hon : p.sub_minute_on with
      | none => simp [hst, hon]
      | some m =>
        have := hbounds.2 m hon
        simp only [hst, Bool.false_eq_true, if_false, hon]
        constructor <;> [omega; omega]
    · cases hoff : p.sub_minute_off with
      | none => simp [hst, hoff]
      | some m =>
        have := hbounds.1 m hoff
        simp only [hst, if_true, hoff]
        constructor <;> [omega; omega]

/-- Witness for the amended C5 at concrete in-range inputs (a replacement on
at 63, ESPN side; a starter off at 71, Sky side). -/
theorem c5_minutes_range_witness :
    (∀ a ∈ calculate_minutes c5wInfo c5wRoster,
      0 ≤ a.minutes_played ∧ a.minutes_played ≤ 80) ∧
    (∀ a ∈ calculate_appearances c5wSkyInfo c5wSkyTeams "2018-19",
      0 ≤ a.minutes_played ∧ a.minutes_played ≤ 80) :=
  ⟨c5_minutes_range.1 c5wInfo c5wRoster (by decide),
   c5_minutes_range.2 c5wSkyInfo c5wSkyTeams "2018-19" (by decide)⟩

/-! ### Association-list lemmas for the deduplicator proofs -/

theorem lookupKey_append {κ α : Type} [DecidableEq κ]
    (l1 l2 : List (κ × α)) (key : κ) :
    lookupKey (l1 ++ l2) key =
      match lookupKey l1 key with
      | some v => some v
      | none => lookupKey l2 key := by
  induction l1 with
  | nil => simp [lookupKey]
  | cons kv rest ih =>
    simp only [List.cons_append, lookupKey]
    by_cases h : key = kv.1 <;> simp [h, ih]

theorem lookupKey_eq_none {κ α : Type} [DecidableEq κ]
    (l : List (κ × α)) (key : κ) :
    lookupKey l key = none ↔ key ∉ l.map (·.1) := by
  induction l with
  | nil => simp [lookupKey]
  | cons kv rest ih =>
    simp only [lookupKey, List.map_cons, List.mem_cons]
    by_cases h : key = kv.1 <;> simp [h, ih]

theorem lookupKey_mem_keys {κ α : Type} [DecidableEq κ]
    {l : List (κ × α)} {key : κ} {v : α}
    (h : lookupKey l key = some v) : key ∈ l.map (·.1) := by
  by_contra hn
  rw [← lookupKey_eq_none] at hn
  rw [h] at hn
  cases hn

theorem lookupKey_replaceKey_self {κ α : Type} [DecidableEq κ]
    {l : List (κ × α)} {key : κ} (v : α)
    (h : key ∈ l.map (·.1)) :
    lookupKey (replaceKey l key v) key = some v := by
  induction l with
  | nil => simp at h
  | cons kv rest ih =>
    by_cases hk : kv.1 = key
    · simp [replaceKey, lookupKey, hk]
    · have hmem : key ∈ rest.map (·.1) := by
        simp only [List.map_cons, List.mem_cons] at h
        rcases h with hh | hh
        · exact absurd hh.symm hk
        · exact hh
      have hne : ¬ key = kv.1 := fun hc => hk hc.symm
      simp only [replaceKey, List.map_cons, hk, if_false, lookupKey, hne]
      simpa [replaceKey] using ih hmem

theorem lookupKey_replaceKey_ne {κ α : Type} [DecidableEq κ]
    (l : List (κ × α)) {key key' : κ} (v : α) (h : key' ≠ key) :
    lookupKey (replaceKey l key v) key' = lookupKey l key' := by
  induction l with
  | nil => simp [replaceKey, lookupKey]
  | cons kv rest ih =>
    have hfst : (if kv.1 = key then (kv.1, v) else kv).1 = kv.1 := by
      by_cases hk : kv.1 = key <;> simp [hk]
    simp only [replaceKey, List.map_cons, lookupKey, hfst]
    by_cases hk2 : key' = kv.1
    · have hk : ¬ kv.1 = key := fun hc => h (hk2.trans hc)
      simp [hk2, hk]
    · simp only [hk2, if_false]
      simpa [replaceKey] using ih

theorem map_fst_replaceKey {κ α : Type} [DecidableEq κ]
    (l : List (κ × α)) (key : κ) (v : α) :
    (replaceKey l key v).map (·.1) = l.map (·.1) := by
  induction l with
  | nil => rfl
  | cons kv rest ih =>
    simp only [replaceKey, List.map_cons] at *
    by_cases hk : kv.1 = key <;> simp [hk, ih]

/-! ### Pass-1 invariants -/

theorem pass1Step_inv (pre : List MatchRecord)
    (seen : List (String × MatchRecord)) (m : MatchRecord)
    (h1 : ∀ kv ∈ seen, kv.2.espn_match_id = kv.1)
    (h2 : (seen.map (·.1)).Nodup)
    (h3 : ∀ kv ∈ seen, kv.2 ∈ pre) :
    (∀ kv ∈ pass1Step seen m, kv.2.espn_match_id = kv.1) ∧
    ((pass1Step seen m).map (·.1)).Nodup ∧
    (∀ kv ∈ pass1Step seen m, kv.2 ∈ pre ++ [m]) := by
  unfold pass1Step
  cases hlk : lookupKey seen m.espn_match_id with
  | none =>
    refine ⟨?_, ?_, ?_⟩
    · intro kv hkv
      rcases List.mem_append.mp hkv with h | h
      · exact h1 kv h
      · simp only [List.mem_singleton] at h
        subst h; rfl
    · rw [List.map_append]
      rw [List.nodup_append]
      refine ⟨h2, List.nodup_singleton _, ?_⟩
      intro k hk hk2
      simp only [List.map_cons, List.map_nil, List.mem_singleton] at hk2
      subst hk2
      exact ((lookupKey_eq_none seen m.espn_match_id).mp hlk) hk
    · intro kv hkv
      rcases List.mem_append.mp hkv with h | h
      · exact List.mem_append_left _ (h3 kv h)
      · simp only [List.mem_singleton] at h
        subst h
        exact List.mem_append_right _ (List.mem_singleton_self m)
  | some ex =>
    by_cases hpr : priorityOf m.tournament < priorityOf ex.tournament
    · simp only [hpr, if_true]
      refine ⟨?_, ?_, ?_⟩
      · intro kv hkv
        simp only [replaceKey, List.mem_map] at hkv
        obtain ⟨kv0, hkv0, hrep⟩ := hkv
        by_cases hk : kv0.1 = m.espn_match_id
        · simp only [hk, if_true] at hrep
          subst hrep
          simp [hk]
        · simp only [hk, if_false] at hrep
          subst hrep
          exact h1 kv0 hkv0
      · rw [map_fst_replaceKey]; exact h2
      · intro kv hkv
        simp only [replaceKey, List.mem_map] at hkv
        obtain ⟨kv0, hkv0, hrep⟩ := hkv
        by_cases hk : kv0.1 = m.espn_match_id
        · simp only [hk, if_true] at hrep
          subst hrep
          exact List.mem_append_right _ (List.mem_singleton_self m)
        · simp only [hk, if_false] at hrep
          subst hrep
          exact List.mem_append_left _ (h3 kv0 hkv0)
    · simp only [hpr, if_false]
      exact ⟨h1, h2, fun kv hkv => List.mem_append_left _ (h3 kv hkv)⟩

theorem pass1_foldl_inv :
    ∀ (ms pre : List MatchRecord) (seen : List (String × MatchRecord)),
      (∀ kv ∈ seen, kv.2.espn_match_id = kv.1) →
      ((seen.map (·.1)).Nodup) →
      (∀ kv ∈ seen, kv.2 ∈ pre) →
      (∀ kv ∈ ms.foldl pass1Step seen, kv.2.espn_match_id = kv.1) ∧
      ((ms.foldl pass1Step seen).map (·.1)).Nodup ∧
      (∀ kv ∈ ms.foldl pass1Step seen, kv.2 ∈ pre ++ ms)
  | [], pre, seen, h1, h2, h3 => by
    refine ⟨h1, h2, ?_⟩
    intro kv hkv
    rw [List.append_nil]
    exact h3 kv hkv
  | m :: rest, pre, seen, h1, h2, h3 => by
    simp only [List.foldl_cons]
    obtain ⟨g1, g2, g3⟩ := pass1Step_inv pre seen m h1 h2 h3
    have := pass1_foldl_inv rest (pre ++ [m]) (pass1Step seen m) g1 g2 g3
    simpa [List.append_assoc] using this

/-- Pass-1 output: every record keeps a distinct `espn_match_id` and is drawn
from the input. -/
theorem pass1_out (ms : List MatchRecord) :
    (pass1 ms).Pairwise (fun a b => a.espn_match_id ≠ b.espn_match_id) ∧
    (∀ r ∈ pass1 ms, r ∈ ms) := by
  obtain ⟨h1, h2, h3⟩ := pass1_foldl_inv ms [] []
    (by intro kv h; cases h) (by simp) (by intro kv h; cases h)
  constructor
  · unfold pass1
    rw [List.pairwise_map]
    have h2p : List.Pairwise (fun a b : String => a ≠ b)
        (List.map (fun x => x.1) (ms.foldl pass1Step [])) := h2
    have hkeys := List.pairwise_map.mp h2p
    exact List.Pairwise.imp_of_mem (fun ha hb hne => by
      rw [h1 _ ha, h1 _ hb]; exact hne) hkeys
  · intro r hr
    unfold pass1 at hr
    rw [List.mem_map] at hr
    obtain ⟨kv, hkv, rfl⟩ := hr
    simpa using h3 kv hkv

/-! ### Pass-2 invariants -/

theorem pass2Step_inv (pre : List MatchRecord)
    (st : List ((List Char × String × String) × MatchRecord) × List MatchRecord)
    (m : MatchRecord)
    (h1 : ∀ r ∈ st.2, lookupKey st.1 (matchSig r) = some r)
    (h2 : ∀ s r, lookupKey st.1 s = some r → matchSig r = s ∧ r ∈ st.2)
    (h3 : (st.2.map matchSig).Nodup)
    (h4 : ∀ r ∈ st.2, r ∈ pre)
    (h5 : ∀ m0 ∈ pre, ∃ r ∈ st.2, matchSig r = matchSig m0) :
    (∀ r ∈ (pass2Step st m).2,
      lookupKey (pass2Step st m).1 (matchSig r) = some r) ∧
    (∀ s r, lookupKey (pass2Step st m).1 s = some r →
      matchSig r = s ∧ r ∈ (pass2Step st m).2) ∧
    ((pass2Step st m).2.map matchSig).Nodup ∧
    (∀ r ∈ (pass2Step st m).2, r ∈ pre ++ [m]) ∧
    (∀ m0 ∈ pre ++ [m],
      ∃ r ∈ (pass2Step st m).2, matchSig r = matchSig m0) := by
  unfold pass2Step
  cases hlk : lookupKey st.1 (matchSig m) with
  | none =>
    dsimp only
    have hnotin : matchSig m ∉ List.map matchSig st.2 := by
      intro hmem
      rw [List.mem_map] at hmem
      obtain ⟨r, hr, hsig⟩ := hmem
      have hx := h1 r hr
      rw [hsig, hlk] at hx
      cases hx
    refine ⟨?_, ?_, ?_, ?_, ?_⟩
    · intro r hr
      rcases List.mem_append.mp hr with hh | hh
      · rw [lookupKey_append, h1 r hh]
      · simp only [List.mem_singleton] at hh
        subst hh
        rw [lookupKey_append, hlk]
        simp [lookupKey]
    · intro s r hs
      rw [lookupKey_append] at hs
      cases hc : lookupKey st.1 s with
      | some w =>
        rw [hc] at hs
        simp only at hs
        obtain ⟨hsig, hmem⟩ := h2 s w hc
        injection hs with hw
        subst hw
        exact ⟨hsig, List.mem_append_left _ hmem⟩
      | none =>
        rw [hc] at hs
        simp only at hs
        by_cases hsm : s = matchSig m
        · subst hsm
          simp [lookupKey] at hs
          subst hs
          exact ⟨rfl, List.mem_append_right _ (List.mem_singleton_self m)⟩
        · simp [lookupKey, hsm] at hs
    · rw [List.map_append, List.nodup_append]
      refine ⟨h3, List.nodup_singleton _, ?_⟩
      intro x hx hx2
      simp only [List.map_cons, List.map_nil, List.mem_singleton] at hx2
      subst hx2
      exact hnotin hx
    · intro r hr
      rcases List.mem_append.mp hr with hh | hh
      · exact List.mem_append_left _ (h4 r hh)
      · simp only [List.mem_singleton] at hh
        subst hh
        exact List.mem_append_right _ (List.mem_singleton_self _)
    · intro m0 hm0
      rcases List.mem_append.mp hm0 with hh | hh
      · obtain ⟨r, hr, hsig⟩ := h5 m0 hh
        exact ⟨r, List.mem_append_left _ hr, hsig⟩
      · simp only [List.mem_singleton] at hh
        subst hh
        exact ⟨m0, List.mem_append_right _ (List.mem_singleton_self _), rfl⟩
  | some ex =>
    obtain ⟨hsigex, hexmem⟩ := h2 (matchSig m) ex hlk
    by_cases hpr : priorityOf m.tournament < priorityOf ex.tournament
    · simp only [hpr, if_true]
      have hkeymem : matchSig m ∈ st.1.map (·.1) := lookupKey_mem_keys hlk
      refine ⟨?_, ?_, ?_, ?_, ?_⟩
      · intro r hr
        rcases List.mem_append.mp hr with hh | hh
        · rw [List.mem_filter] at hh
          obtain ⟨hrmem, hrne⟩ := hh
          have hrne2 : r ≠ ex := by simpa using hrne
          have hsr : matchSig r ≠ matchSig m := by
            intro heq
            have hx := h1 r hrmem
            rw [heq, hlk] at hx
            injection hx with hw
            exact hrne2 hw.symm
          rw [lookupKey_replaceKey_ne st.1 m hsr]
          exact h1 r hrmem
        · simp only [List.mem_singleton] at hh
          subst hh
          exact lookupKey_replaceKey_self _ hkeymem
      · intro s r hs
        by_cases hsm : s = matchSig m
        · subst hsm
          rw [lookupKey_replaceKey_self m hkeymem] at hs
          injection hs with hw
          subst hw
          exact ⟨rfl, List.mem_append_right _ (List.mem_singleton_self m)⟩
        · rw [lookupKey_replaceKey_ne st.1 m (fun hc => hsm hc)] at hs
          obtain ⟨hsig, hmem⟩ := h2 s r hs
          have hrne : r ≠ ex := by
            intro heq
            subst heq
            exact hsm (hsig.symm.trans hsigex)
          refine ⟨hsig, List.mem_append_left _ ?_⟩
          rw [List.mem_filter]
          exact ⟨hmem, by simpa using hrne⟩
      · rw [List.map_append, List.nodup_append]
        refine ⟨?_, List.nodup_singleton _, ?_⟩
        · exact List.Nodup.sublist ((List.filter_sublist _).map matchSig) h3
        · intro x hx hx2
          simp only [List.map_cons, List.map_nil, List.mem_singleton] at hx2
          subst hx2
          rw [List.mem_map] at hx
          obtain ⟨r, hr, hsr⟩ := hx
          rw [List.mem_filter] at hr
          obtain ⟨hrmem, hrne⟩ := hr
          have hx2 := h1 r hrmem
          rw [hsr, hlk] at hx2
          injection hx2 with hw
          exact (by simpa using hrne : r ≠ ex) hw.symm
      · intro r hr
        rcases List.mem_append.mp hr with hh | hh
        · rw [List.mem_filter] at hh
          exact List.mem_append_left _ (h4 r hh.1)
        · simp only [List.mem_singleton] at hh
          subst hh
          exact List.mem_append_right _ (List.mem_singleton_self _)
      · intro m0 hm0
        rcases List.mem_append.mp hm0 with hh | hh
        · obtain ⟨r, hr, hsig⟩ := h5 m0 hh
          by_cases hre : r = ex
          · refine ⟨m, List.mem_append_right _ (List.mem_singleton_self m), ?_⟩
            rw [← hsig, hre]
            exact hsigex.symm
          · refine ⟨r, List.mem_append_left _ ?_, hsig⟩
            rw [List.mem_filter]
            exact ⟨hr, by simpa using hre⟩
        · simp only [List.mem_singleton] at hh
          subst hh
          exact ⟨m0, List.mem_append_right _ (List.mem_singleton_self _), rfl⟩
    · simp only [hpr, if_false]
      refine ⟨h1, h2, h3, ?_, ?_⟩
      · exact fun r hr => List.mem_append_left _ (h4 r hr)
      · intro m0 hm0
        rcases List.mem_append.mp hm0 with hh | hh
        · exact h5 m0 hh
        · simp only [List.mem_singleton] at hh
          subst hh
          exact ⟨ex, hexmem, hsigex⟩

theorem pass2_foldl_inv :
    ∀ (ms pre : List MatchRecord)
      (st : List ((List Char × String × String) × MatchRecord) × List MatchRecord),
      (∀ r ∈ st.2, lookupKey st.1 (matchSig r) = some r) →
      (∀ s r, lookupKey st.1 s = some r → matchSig r = s ∧ r ∈ st.2) →
      ((st.2.map matchSig).Nodup) →
      (∀ r ∈ st.2, r ∈ pre) →
      (∀ m0 ∈ pre, ∃ r ∈ st.2, matchSig r = matchSig m0) →
      (((ms.foldl pass2Step st).2.map matchSig).Nodup) ∧
      (∀ r ∈ (ms.foldl pass2Step st).2, r ∈ pre ++ ms) ∧
      (∀ m0 ∈ pre ++ ms, ∃ r ∈ (ms.foldl pass2Step st).2, matchSig r = matchSig m0)
  | [], pre, st, _, _, h3, h4, h5 => by
    refine ⟨h3, ?_, ?_⟩
    · intro r hr
      rw [List.append_nil]
      exact h4 r hr
    · intro m0 hm0
      rw [List.append_nil] at hm0
      exact h5 m0 hm0
  | m :: rest, pre, st, h1, h2, h3, h4, h5 => by
    simp only [List.foldl_cons]
    obtain ⟨g1, g2, g3, g4, g5⟩ := pass2Step_inv pre st m h1 h2 h3 h4 h5
    have := pass2_foldl_inv rest (pre ++ [m]) (pass2Step st m) g1 g2 g3 g4 g5
    simpa [List.append_assoc] using this

/-- Pass-2 output: pairwise-distinct signatures, drawn from the input, and
covering every input signature. -/
theorem pass2_out (ms : List MatchRecord) :
    (((pass2 ms).map matchSig).Nodup) ∧
    (∀ r ∈ pass2 ms, r ∈ ms) ∧
    (∀ m0 ∈ ms, ∃ r ∈ pass2 ms, matchSig r = matchSig m0) := by
  have h := pass2_foldl_inv ms [] ([], [])
    (by intro r hr; cases hr) (by intro s r hx; cases hx) (by simp)
    (by intro r hr; cases hr) (by intro m0 hm0; cases hm0)
  unfold pass2
  simpa using h

theorem dedup_sig_nodup (ms : List MatchRecord) :
    ((deduplicate_matches ms).map matchSig).Nodup :=
  (pass2_out (pass1 ms)).1

theorem dedup_sub (ms : List MatchRecord) :
    ∀ r ∈ deduplicate_matches ms, r ∈ ms :=
  fun r hr => (pass1_out ms).2 r ((pass2_out (pass1 ms)).2.1 r hr)

theorem dedup_ids_pairwise (ms : List MatchRecord) :
    (deduplicate_matches ms).Pairwise
      (fun a b => a.espn_match_id ≠ b.espn_match_id) := by
  have hnd : (deduplicate_matches ms).Nodup :=
    List.Nodup.of_map matchSig (dedup_sig_nodup ms)
  have hsub : ∀ r ∈ deduplicate_matches ms, r ∈ pass1 ms :=
    (pass2_out (pass1 ms)).2.1
  have hsymm : Symmetric
      (fun a b : MatchRecord => a.espn_match_id ≠ b.espn_match_id) :=
    fun _ _ hxy hc => hxy hc.symm
  have hforall := (pass1_out ms).1.forall hsymm
  exact List.Pairwise.imp_of_mem
    (fun ha hb hneq => hforall (hsub _ ha) (hsub _ hb) hneq) hnd

/-! ### Fixed-point lemmas for the deduplicator -/

theorem pass1_foldl_fresh :
    ∀ (ms : List MatchRecord) (acc : List (String × MatchRecord)),
      (∀ m ∈ ms, lookupKey acc m.espn_match_id = none) →
      ms.Pairwise (fun a b => a.espn_match_id ≠ b.espn_match_id) →
      ms.foldl pass1Step acc = acc ++ ms.map (fun m => (m.espn_match_id, m))
  | [], acc, _, _ => by simp
  | m :: rest, acc, hfresh, hpw => by
    simp only [List.foldl_cons]
    have hm : lookupKey acc m.espn_match_id = none :=
      hfresh m (List.mem_cons_self _ _)
    have hstep : pass1Step acc m = acc ++ [(m.espn_match_id, m)] := by
      unfold pass1Step
      rw [hm]
    have htail := pass1_foldl_fresh rest (acc ++ [(m.espn_match_id, m)])
      (by
        intro m2 hm2
        rw [lookupKey_append, hfresh m2 (List.mem_cons_of_mem _ hm2)]
        have hne : ¬ m2.espn_match_id = m.espn_match_id :=
          fun hc => ((List.pairwise_cons.mp hpw).1 m2 hm2) hc.symm
        simp [lookupKey, hne])
      (List.Pairwise.of_cons hpw)
    rw [hstep, htail]
    simp

theorem pass1_eq_self (ms : List MatchRecord)
    (hids : ms.Pairwise (fun a b => a.espn_match_id ≠ b.espn_match_id)) :
    pass1 ms = ms := by
  unfold pass1
  rw [pass1_foldl_fresh ms [] (fun m _ => rfl) hids]
  simp only [List.nil_append, List.map_map]
  exact List.map_id' ms

theorem pass2_foldl_fresh :
    ∀ (ms : List MatchRecord)
      (acc : List ((List Char × String × String) × MatchRecord))
      (res : List MatchRecord),
      (∀ m ∈ ms, lookupKey acc (matchSig m) = none) →
      ((ms.map matchSig).Nodup) →
      ms.foldl pass2Step (acc, res) =
        (acc ++ ms.map (fun m => (matchSig m, m)), res ++ ms)
  | [], acc, res, _, _ => by simp
  | m :: rest, acc, res, hfresh, hnd => by
    simp only [List.foldl_cons]
    have hstep : pass2Step (acc, res) m = (acc ++ [(matchSig m, m)], res ++ [m]) := by
      unfold pass2Step
      rw [hfresh m (List.mem_cons_self _ _)]
    have hnds : matchSig m ∉ List.map matchSig rest ∧
        (List.map matchSig rest).Nodup := by
      rw [List.map_cons, List.nodup_cons] at hnd
      exact hnd
    have htail := pass2_foldl_fresh rest (acc ++ [(matchSig m, m)]) (res ++ [m])
      (by
        intro m2 hm2
        rw [lookupKey_append, hfresh m2 (List.mem_cons_of_mem _ hm2)]
        have hne : ¬ matchSig m2 = matchSig m := by
          intro hc
          exact hnds.1 (hc ▸ List.mem_map_of_mem matchSig hm2)
        simp [lookupKey, hne])
      hnds.2
    rw [hstep, htail]
    simp

theorem pass2_eq_self (ms : List MatchRecord)
    (hsig : (ms.map matchSig).Nodup) : pass2 ms = ms := by
  unfold pass2
  rw [pass2_foldl_fresh ms [] [] (fun m _ => rfl) hsig]
  simp

/-- Full evaluation of the deduplicator on a two-record pool with distinct
identifiers: the Pass-2 collision logic in closed form. -/
theorem dedup_pair (r1 r2 : MatchRecord)
    (hid : r1.espn_match_id ≠ r2.espn_match_id) :
    deduplicate_matches [r1, r2] =
      if matchSig r2 = matchSig r1 then
        (if priorityOf r2.tournament < priorityOf r1.tournament then [r2] else [r1])
      else [r1, r2] := by
  have hne : ¬ r2.espn_match_id = r1.espn_match_id := fun hc => hid hc.symm
  have hp1 : pass1 [r1, r2] = [r1, r2] := by
    apply pass1_eq_self
    exact List.pairwise_cons.mpr ⟨by simpa using hid, by simp⟩
  unfold deduplicate_matches
  rw [hp1]
  unfold pass2
  simp only [List.foldl_cons, List.foldl_nil]
  have t1 : pass2Step ([], []) r1 = ([(matchSig r1, r1)], [r1]) := by
    unfold pass2Step
    rfl
  rw [t1]
  by_cases hsig : matchSig r2 = matchSig r1
  · have hl : lookupKey [(matchSig r1, r1)] (matchSig r2) = some r1 := by
      simp [lookupKey, hsig]
    unfold pass2Step
    rw [hl]
    by_cases hpr : priorityOf r2.tournament < priorityOf r1.tournament
    · simp only [hpr, if_true, hsig, if_true]
      simp [List.filter]
    · simp [hpr, hsig]
  · have hl : lookupKey [(matchSig r1, r1)] (matchSig r2) = none := by
      simp [lookupKey, hsig]
    unfold pass2Step
    rw [hl]
    simp [hsig]

/-! ### C9: idempotence of the deduplicator -/

/-- Claim C9: the Match Deduplicator is a fixed point on its own output —
running it twice yields exactly the same list (same records, same order). -/
theorem c9_deduplicator_idempotent (ms : List MatchRecord) :
    deduplicate_matches (deduplicate_matches ms) = deduplicate_matches ms := by
  have h1 : pass1 (deduplicate_matches ms) = deduplicate_matches ms :=
    pass1_eq_self _ (dedup_ids_pairwise ms)
  have h2 : pass2 (deduplicate_matches ms) = deduplicate_matches ms :=
    pass2_eq_self _ (dedup_sig_nodup ms)
  show pass2 (pass1 (deduplicate_matches ms)) = _
  rw [h1, h2]

/-! ### C2: which team names enter the structural signature -/

/-- Counterexample to C2 as stated: two pooled records on the same calendar
day whose team names agree after `normalize_team` (they differ only in case
and surrounding whitespace) get DIFFERENT structural signatures, and the
deduplicator keeps both — Pass 2 builds its signature from the raw names. -/
theorem c2_counterexample_no_normalization :
    normalize_team c2r1.home_team = normalize_team c2r2.home_team ∧
    normalize_team c2r1.away_team = normalize_team c2r2.away_team ∧
    c2r1.date.data.take 10 = c2r2.date.data.take 10 ∧
    matchSig c2r1 ≠ matchSig c2r2 ∧
    deduplicate_matches [c2r1, c2r2] = [c2r1, c2r2] := by decide

/-- Claim C2 (amended): Pass 2 groups the Pass-1 survivors by the structural
signature (date truncated to calendar day, unordered pair of RAW team names —
no trimming or case-folding is applied, unlike the Cross-Source Merger's
`normalize_team` comparisons): given pairwise-distinct identifiers, the
output carries pairwise-distinct signatures, is drawn from the input, and
represents every input record's signature class. -/
theorem c2_signature_groups_raw (ms : List MatchRecord)
    (hids : ms.Pairwise (fun a b => a.espn_match_id ≠ b.espn_match_id)) :
    ((deduplicate_matches ms).Pairwise (fun a b => matchSig a ≠ matchSig b)) ∧
    (∀ r ∈ deduplicate_matches ms, r ∈ ms) ∧
    (∀ m ∈ ms, ∃ r ∈ deduplicate_matches ms, matchSig r = matchSig m) := by
  refine ⟨?_, dedup_sub ms, ?_⟩
  · have hnd := dedup_sig_nodup ms
    have hndp : List.Pairwise (fun a b : List Char × String × String => a ≠ b)
        (List.map matchSig (deduplicate_matches ms)) := hnd
    exact List.pairwise_map.mp hndp
  · intro m hm
    have hp1 : pass1 ms = ms := pass1_eq_self ms hids
    have h := (pass2_out (pass1 ms)).2.2 m (by rw [hp1]; exact hm)
    exact h

/-- Witness for the amended C2 at a concrete two-record pool. -/
theorem c2_signature_groups_raw_witness :
    ([c2w1, c2w2].Pairwise (fun a b => a.espn_match_id ≠ b.espn_match_id)) ∧
    ((deduplicate_matches [c2w1, c2w2]).Pairwise
      (fun a b => matchSig a ≠ matchSig b)) ∧
    (∀ r ∈ deduplicate_matches [c2w1, c2w2], r ∈ [c2w1, c2w2]) := by
  have hpw : [c2w1, c2w2].Pairwise
      (fun a b => a.espn_match_id ≠ b.espn_match_id) := by
    refine List.pairwise_cons.mpr ⟨?_, by simp⟩
    intro b hb
    simp only [List.mem_singleton] at hb
    subst hb
    decide
  have h := c2_signature_groups_raw [c2w1, c2w2] hpw
  exact ⟨hpw, h.1, h.2.1⟩

/-! ### C3: tournament-priority tie-breaking -/

/-- Claim C3: a pool of two records with distinct identifiers and the same
structural signature, one carrying a priority-1 named tournament and the
other tagged "International Test Match" (priority 2), deduplicates to exactly
the priority-1 record — whichever order the pool lists them in. -/
theorem c3_priority_correctness (r1 r2 : MatchRecord)
    (hid : r1.espn_match_id ≠ r2.espn_match_id)
    (hsig : matchSig r1 = matchSig r2)
    (hpr1 : priorityOf r1.tournament = 1)
    (hpr2 : r2.tournament = "International Test Match") :
    deduplicate_matches [r1, r2] = [r1] ∧
    deduplicate_matches [r2, r1] = [r1] := by
  have hpr2v : priorityOf r2.tournament = 2 := by
    rw [hpr2]
    decide
  constructor
  · rw [dedup_pair r1 r2 hid, if_pos hsig.symm, hpr2v, hpr1]
    norm_num
  · rw [dedup_pair r2 r1 (fun hc => hid hc.symm), if_pos hsig, hpr2v, hpr1]
    norm_num

/-- Witness for C3: the spec's §8 scenario (a Rugby-World-Cup record against
an "International Test Match" record for the same date and teams). -/
theorem c3_priority_correctness_witness :
    deduplicate_matches [c3r1, c3r2] = [c3r1] ∧
    deduplicate_matches [c3r2, c3r1] = [c3r1] :=
  c3_priority_correctness c3r1 c3r2 (by decide) (by decide) (by decide)
    (by decide)

/-! ### C6: records with missing correlation fields -/

/-- Counterexample to C6 as stated: two records that BOTH lack a date but
agree on the raw team pair collide in the signature pass — the second one is
absorbed instead of passing through untouched. -/
theorem c6_missing_date_collides_counterexample :
    c6r1.date = "" ∧ c6r2.date = "" ∧
    c6r1.espn_match_id ≠ c6r2.espn_match_id ∧
    deduplicate_matches [c6r1, c6r2] = [c6r1] := by decide

/-- Claim C6 (amended): a record with a missing date gets a signature whose
date component is the empty string; it never collides with a record whose
date is present, but it CAN collide with another record that is missing the
same field and agrees on the remaining signature components. -/
theorem c6_missing_fields (r1 r2 : MatchRecord)
    (hid : r1.espn_match_id ≠ r2.espn_match_id) :
    (r1.date = "" → r2.date ≠ "" → deduplicate_matches [r1, r2] = [r1, r2]) ∧
    (matchSig r1 = matchSig r2 →
      (deduplicate_matches [r1, r2]).length = 1) := by
  constructor
  · intro h1 h2
    rw [dedup_pair r1 r2 hid]
    have hd1 : r1.date.data = [] := by rw [h1]
    have hd2 : r2.date.data ≠ [] := by
      intro hc
      exact h2 (congrArg String.mk hc)
    have hsig : ¬ matchSig r2 = matchSig r1 := by
      intro hc
      have htake := congrArg Prod.fst hc
      simp only [matchSig] at htake
      rw [hd1] at htake
      simp only [List.take_nil] at htake
      cases hdd : r2.date.data with
      | nil => exact hd2 hdd
      | cons c cs =>
        rw [hdd] at htake
        simp at htake
    rw [if_neg hsig]
  · intro hsig
    rw [dedup_pair r1 r2 hid, if_pos hsig.symm]
    by_cases hpr : priorityOf r2.tournament < priorityOf r1.tournament <;>
      simp [hpr]

/-- Witness for the amended C6: a dateless record passes through untouched
next to a dated one, and collides with a second dateless record that shares
its team pair. -/
theorem c6_missing_fields_witness :
    (deduplicate_matches [c6w1, c6w2] = [c6w1, c6w2]) ∧
    ((deduplicate_matches [c6w1, c6w3]).length = 1) :=
  ⟨(c6_missing_fields c6w1 c6w2 (by decide)).1 (by decide) (by decide),
   (c6_missing_fields c6w1 c6w3 (by decide)).2 (by decide)⟩

/-! ### C7: the Appearance Filter -/

theorem deduplicate_appearances_go_spec (valid : List String) :
    ∀ (apps : List AppearanceRow) (seen : List (String × String × String)),
      deduplicate_appearances_go valid apps seen =
        dedupFirstByKey (filterValidApps apps valid) seen
  | [], _ => rfl
  | a :: rest, seen => by
    have ih := deduplicate_appearances_go_spec valid rest
    by_cases hv : a.espn_match_id ∈ valid
    · have hfil : filterValidApps (a :: rest) valid =
          a :: filterValidApps rest valid := by
        simp [filterValidApps, List.filter_cons, hv]
      rw [hfil]
      by_cases hk : appKey a ∈ seen
      · unfold deduplicate_appearances_go
        rw [if_pos hv, if_pos hk]
        unfold dedupFirstByKey
        rw [if_pos hk]
        exact ih seen
      · unfold deduplicate_appearances_go
        rw [if_pos hv, if_neg hk]
        unfold dedupFirstByKey
        rw [if_neg hk]
        rw [ih (appKey a :: seen)]
    · have hfil : filterValidApps (a :: rest) valid =
          filterValidApps rest valid := by
        simp [filterValidApps, List.filter_cons, hv]
      rw [hfil]
      unfold deduplicate_appearances_go
      rw [if_neg hv]
      exact ih seen

theorem deduplicate_appearances_props (valid : List String) :
    ∀ (apps : List AppearanceRow) (seen : List (String × String × String)),
      (∀ a ∈ deduplicate_appearances_go valid apps seen,
        a.espn_match_id ∈ valid) ∧
      ((deduplicate_appearances_go valid apps seen).map appKey).Nodup ∧
      (∀ k ∈ (deduplicate_appearances_go valid apps seen).map appKey, k ∉ seen)
  | [], seen =>
    ⟨fun a ha => absurd ha (List.not_mem_nil a),
     by simp [deduplicate_appearances_go],
     fun k hk => absurd hk (by simp [deduplicate_appearances_go])⟩
  | a :: rest, seen => by
    unfold deduplicate_appearances_go
    by_cases hv : a.espn_match_id ∈ valid
    · rw [if_pos hv]
      by_cases hk : appKey a ∈ seen
      · rw [if_pos hk]
        exact deduplicate_appearances_props valid rest seen
      · rw [if_neg hk]
        obtain ⟨ih1, ih2, ih3⟩ :=
          deduplicate_appearances_props valid rest (appKey a :: seen)
        refine ⟨?_, ?_, ?_⟩
        · intro x hx
          rcases List.mem_cons.mp hx with rfl | hx2
          · exact hv
          · exact ih1 x hx2
        · rw [List.map_cons, List.nodup_cons]
          refine ⟨?_, ih2⟩
          intro hmem
          exact ih3 _ hmem (List.mem_cons_self _ _)
        · intro k hk2
          rw [List.map_cons, List.mem_cons] at hk2
          rcases hk2 with rfl | hk3
          · exact hk
          · intro hmem
            exact ih3 k hk3 (List.mem_cons_of_mem _ hmem)
    · rw [if_neg hv]
      exact deduplicate_appearances_props valid rest seen

/-- Claim C7: the Appearance Filter returns exactly the appearances whose
match identifier is canonical, with duplicates under
`(match_id, player_name, team)` dropped keeping the first occurrence (it
coincides with the spec-side filter-then-first-occurrence-dedup composite);
consequently every surviving row's id is canonical and no two surviving rows
share the key. -/
theorem c7_appearance_filter (apps : List AppearanceRow) (valid : List String) :
    deduplicate_appearances apps valid = filterThenDedupSpec apps valid ∧
    (∀ a ∈ deduplicate_appearances apps valid, a.espn_match_id ∈ valid) ∧
    ((deduplicate_appearances apps valid).map appKey).Nodup := by
  obtain ⟨h1, h2, -⟩ := deduplicate_appearances_props valid apps []
  exact ⟨deduplicate_appearances_go_spec valid apps [], h1, h2⟩

/-- Witness for C7: a pool with an exact duplicate and a row referencing an
absorbed match collapses to the single canonical appearance. -/
theorem c7_appearance_filter_witness :
    deduplicate_appearances c7Apps c7Valid = [c7app1] ∧
    c7app1.espn_match_id ∈ c7Valid ∧
    ((deduplicate_appearances c7Apps c7Valid).map appKey).Nodup := by
  have h := c7_appearance_filter c7Apps c7Valid
  have hout : deduplicate_appearances c7Apps c7Valid = [c7app1] := by decide
  exact ⟨hout, h.2.1 c7app1 (by rw [hout]; exact List.mem_singleton_self _),
    h.2.2⟩

/-! ### C8: the Cross-Source Merger's appearance table -/

theorem espnHasEquivalent_iff (espn : List MergeAppearanceRow)
    (sa : MergeAppearanceRow)
    (hA : ∀ a ∈ espn, a.source = "espn") :
    espnHasEquivalent espn sa = true ↔
      ∃ a ∈ espn, appMergeKey a = appMergeKey sa := by
  unfold espnHasEquivalent
  rw [List.any_eq_true]
  constructor
  · rintro ⟨a, ha, hcond⟩
    simp only [Bool.and_eq_true, decide_eq_true_eq] at hcond
    obtain ⟨⟨⟨⟨-, hh⟩, haw⟩, hse⟩, hpn⟩ := hcond
    refine ⟨a, ha, ?_⟩
    unfold appMergeKey
    rw [hh, haw, hse, hpn]
  · rintro ⟨a, ha, hk⟩
    refine ⟨a, ha, ?_⟩
    simp only [Bool.and_eq_true, decide_eq_true_eq]
    unfold appMergeKey at hk
    simp only [Prod.mk.injEq] at hk
    exact ⟨⟨⟨⟨hA a ha, hk.1⟩, hk.2.1⟩, hk.2.2.1⟩, hk.2.2.2⟩

/-- Counterexample to C8 as stated: the claim's normalized player-name key is
the §4.5 one, which folds apostrophe glyph variants — but the program's
`normalize_name` does not (its `replace` is a no-op), so a Source-B row whose
player name differs from a Source-A row's only in the apostrophe glyph
(U+2019 vs ASCII) IS included: the merged table carries two rows for the one
glyph-folded key, against the claim's "included if and only if no Source-A
appearance exists with the same normalized key". -/
theorem c8_glyph_variant_counterexample :
    c8gEa.source = "espn" ∧ c8gSa.source = "sky_sports" ∧
    normalize_team c8gEa.home_team = normalize_team c8gSa.home_team ∧
    normalize_team c8gEa.away_team = normalize_team c8gSa.away_team ∧
    c8gEa.season = c8gSa.season ∧
    normalize_name_folded c8gEa.player_name =
      normalize_name_folded c8gSa.player_name ∧
    normalize_name c8gEa.player_name ≠ normalize_name c8gSa.player_name ∧
    merge_data_appearances [c8gEa] [c8gSa] = [c8gEa, c8gSa] := by decide

/-- Claim C8 (amended): the merge key's player-name normalization is the
code's `normalize_name` — strip and case-fold only, its apostrophe `replace`
being a no-op, so names differing in apostrophe glyph count as distinct keys.
Under that key: every Source-A appearance row is in the merged table; a
Source-B row is included iff no Source-A row shares its
`(normalized home_team, normalized away_team, season, normalized player_name)`
key; and when exactly one Source-A row carries a key, the merged table's rows
with that key are exactly that Source-A row.  (The data-flow facts that
Source-A rows are tagged `source = "espn"` and Source-B rows are not are
hypotheses.) -/
theorem c8_merge_appearances (espn sky : List MergeAppearanceRow)
    (hA : ∀ a ∈ espn, a.source = "espn")
    (hB : ∀ sa ∈ sky, sa.source ≠ "espn") :
    (∀ a ∈ espn, a ∈ merge_data_appearances espn sky) ∧
    (∀ sa ∈ sky, (sa ∈ merge_data_appearances espn sky ↔
      ¬ ∃ a ∈ espn, appMergeKey a = appMergeKey sa)) ∧
    (∀ k : String × String × String × String,
      (espn.filter (fun a => decide (appMergeKey a = k))).length = 1 →
      (merge_data_appearances espn sky).filter
          (fun a => decide (appMergeKey a = k)) =
        espn.filter (fun a => decide (appMergeKey a = k))) := by
  refine ⟨?_, ?_, ?_⟩
  · intro a ha
    unfold merge_data_appearances
    exact List.mem_append_left _ ha
  · intro sa hsa
    unfold merge_data_appearances
    rw [List.mem_append]
    constructor
    · rintro (hmem | hmem)
      · cases (hB sa hsa) (hA sa hmem)
      · rw [List.mem_filter] at hmem
        obtain ⟨-, hcond⟩ := hmem
        rw [Bool.not_eq_true'] at hcond
        intro hex
        rw [← espnHasEquivalent_iff espn sa hA] at hex
        rw [hcond] at hex
        cases hex
    · intro hnex
      right
      rw [List.mem_filter]
      refine ⟨hsa, ?_⟩
      rw [Bool.not_eq_true']
      cases he : espnHasEquivalent espn sa with
      | false => rfl
      | true => exact absurd ((espnHasEquivalent_iff espn sa hA).mp he) hnex
  · intro k hk1
    unfold merge_data_appearances
    rw [List.filter_append]
    have hskynil : (sky.filter (fun sa => !espnHasEquivalent espn sa)).filter
        (fun a => decide (appMergeKey a = k)) = [] := by
      rw [List.filter_eq_nil_iff]
      intro sa hsa
      rw [List.mem_filter] at hsa
      obtain ⟨-, hcond⟩ := hsa
      simp only [decide_eq_true_eq]
      intro hkey
      have hne : espn.filter (fun a => decide (appMergeKey a = k)) ≠ [] := by
        intro hc
        rw [hc] at hk1
        simp at hk1
      obtain ⟨a, ha⟩ := List.exists_mem_of_ne_nil _ hne
      rw [List.mem_filter] at ha
      have hka : appMergeKey a = k := by
        have := ha.2
        simpa using this
      have hex : ∃ b ∈ espn, appMergeKey b = appMergeKey sa :=
        ⟨a, ha.1, by rw [hka, hkey]⟩
      rw [← espnHasEquivalent_iff espn sa hA] at hex
      rw [Bool.not_eq_true'] at hcond
      rw [hcond] at hex
      cases hex
    rw [hskynil, List.append_nil]

/-- Witness for C8: a Sky appearance whose normalized key matches the ESPN
row (team names differing only in case/whitespace) is excluded; the merged
table holds exactly the ESPN row for that key. -/
theorem c8_merge_appearances_witness :
    ((∀ a ∈ [c8ea], a.source = "espn") ∧
      (∀ sa ∈ [c8sa], sa.source ≠ "espn")) ∧
    c8ea ∈ merge_data_appearances [c8ea] [c8sa] ∧
    c8sa ∉ merge_data_appearances [c8ea] [c8sa] ∧
    (merge_data_appearances [c8ea] [c8sa]).filter
      (fun a => decide (appMergeKey a = appMergeKey c8ea)) = [c8ea] := by
  have h := c8_merge_appearances [c8ea] [c8sa] (by decide) (by decide)
  refine ⟨⟨by decide, by decide⟩, h.1 c8ea (List.mem_singleton_self _), ?_, ?_⟩
  · intro hmem
    exact ((h.2.1 c8sa (List.mem_singleton_self _)).mp hmem)
      ⟨c8ea, List.mem_singleton_self _, by decide⟩
  · have h3 := h.2.2 (appMergeKey c8ea) (by decide)
    rw [h3]
    decide

/-! ### C10: the Cross-Source Merger's match-table backfill -/

theorem backfill_append_of_nomatch :
    ∀ (rows1 rows2 : List FinalMatchRow) (sm : SkyMatchRow),
      (∀ r ∈ rows1, matchKeyMatches r sm = false) →
      backfillSkyId (rows1 ++ rows2) sm =
        (backfillSkyId rows2 sm).map (rows1 ++ ·)
  | [], rows2, sm, _ => by
    rw [List.nil_append]
    cases backfillSkyId rows2 sm <;> rfl
  | fm :: rows1, rows2, sm, hno => by
    have hfm : matchKeyMatches fm sm = false := hno fm (List.mem_cons_self _ _)
    show backfillSkyId (fm :: (rows1 ++ rows2)) sm = _
    simp only [backfillSkyId, hfm, Bool.false_eq_true, if_false]
    rw [backfill_append_of_nomatch rows1 rows2 sm
      (fun r hr => hno r (List.mem_cons_of_mem _ hr))]
    cases backfillSkyId rows2 sm <;> rfl

theorem matchKeyMatches_congr (r : FinalMatchRow) (s1 s2 : SkyMatchRow)
    (hh : normalize_team s1.home_team = normalize_team s2.home_team)
    (ha : normalize_team s1.away_team = normalize_team s2.away_team)
    (hs : s1.season = s2.season) :
    matchKeyMatches r s2 = matchKeyMatches r s1 := by
  unfold matchKeyMatches
  rw [← hh, ← ha, ← hs]

/-- Claim C10: a Source-B match backfills its identifier into the FIRST
key-matching row and appends nothing; when two distinct Source-B matches
key-match the same single Source-A row, the later one overwrites the earlier
backfilled identifier, and the earlier Source-B identifier appears in no row
of the merged match table. -/
theorem c10_sky_backfill_overwrites (pre post : List EspnMatchRow)
    (em : EspnMatchRow) (s1 s2 : SkyMatchRow)
    (hpre : ∀ m ∈ pre, matchKeyMatches (seedFinalRow m) s1 = false)
    (hem : matchKeyMatches (seedFinalRow em) s1 = true)
    (hh : normalize_team s1.home_team = normalize_team s2.home_team)
    (ha : normalize_team s1.away_team = normalize_team s2.away_team)
    (hs : s1.season = s2.season)
    (hid12 : s1.sky_match_id ≠ s2.sky_match_id)
    (hid1 : s1.sky_match_id ≠ "") :
    merge_data_matches (pre ++ em :: post) [s1, s2] =
      pre.map seedFinalRow ++
        ({ seedFinalRow em with sky_match_id := s2.sky_match_id } ::
          post.map seedFinalRow) ∧
    s1.sky_match_id ∉
      (merge_data_matches (pre ++ em :: post) [s1, s2]).map
        (·.sky_match_id) := by
  have hpre2 : ∀ r ∈ pre.map seedFinalRow, matchKeyMatches r s1 = false := by
    intro r hr
    rw [List.mem_map] at hr
    obtain ⟨m0, hm0, rfl⟩ := hr
    exact hpre m0 hm0
  have hstep1 : applySkyMatch ((pre ++ em :: post).map seedFinalRow) s1 =
      pre.map seedFinalRow ++
        ({ seedFinalRow em with sky_match_id := s1.sky_match_id } ::
          post.map seedFinalRow) := by
    unfold applySkyMatch
    rw [List.map_append, List.map_cons]
    rw [backfill_append_of_nomatch (pre.map seedFinalRow) _ s1 hpre2]
    have hb : backfillSkyId (seedFinalRow em :: post.map seedFinalRow) s1 =
        some ({ seedFinalRow em with sky_match_id := s1.sky_match_id } ::
          post.map seedFinalRow) := by
      simp only [backfillSkyId, hem, if_true]
    rw [hb]
    rfl
  have hkey2 : matchKeyMatches
      { seedFinalRow em with sky_match_id := s1.sky_match_id } s2 = true := by
    have hupd : matchKeyMatches
        { seedFinalRow em with sky_match_id := s1.sky_match_id } s2 =
        matchKeyMatches (seedFinalRow em) s2 := rfl
    rw [hupd, matchKeyMatches_congr (seedFinalRow em) s1 s2 hh ha hs, hem]
  have hstep2 : applySkyMatch
      (pre.map seedFinalRow ++
        ({ seedFinalRow em with sky_match_id := s1.sky_match_id } ::
          post.map seedFinalRow)) s2 =
      pre.map seedFinalRow ++
        ({ seedFinalRow em with sky_match_id := s2.sky_match_id } ::
          post.map seedFinalRow) := by
    unfold applySkyMatch
    rw [backfill_append_of_nomatch (pre.map seedFinalRow) _ s2
      (by
        intro r hr
        rw [matchKeyMatches_congr r s1 s2 hh ha hs]
        exact hpre2 r hr)]
    have hb : backfillSkyId
        ({ seedFinalRow em with sky_match_id := s1.sky_match_id } ::
          post.map seedFinalRow) s2 =
        some ({ seedFinalRow em with sky_match_id := s2.sky_match_id } ::
          post.map seedFinalRow) := by
      simp only [backfillSkyId, hkey2, if_true]
    rw [hb]
    rfl
  have hrun : merge_data_matches (pre ++ em :: post) [s1, s2] =
      pre.map seedFinalRow ++
        ({ seedFinalRow em with sky_match_id := s2.sky_match_id } ::
          post.map seedFinalRow) := by
    unfold merge_data_matches
    simp only [List.foldl_cons, List.foldl_nil]
    rw [hstep1, hstep2]
  refine ⟨hrun, ?_⟩
  rw [hrun]
  intro hmem
  rw [List.mem_map] at hmem
  obtain ⟨r, hr, hid⟩ := hmem
  rcases List.mem_append.mp hr with hh2 | hh2
  · rw [List.mem_map] at hh2
    obtain ⟨m0, -, rfl⟩ := hh2
    exact hid1 hid.symm
  · rcases List.mem_cons.mp hh2 with rfl | hh3
    · exact hid12 hid.symm
    · rw [List.mem_map] at hh3
      obtain ⟨m0, -, rfl⟩ := hh3
      exact hid1 hid.symm

/-- Witness for C10: one ESPN row, two Sky rows with the same normalized key
but different identifiers — "sky-2" ends up in the row, "sky-1" nowhere. -/
theorem c10_sky_backfill_overwrites_witness :
    merge_data_matches [c10em] [c10s1, c10s2] =
      [{ seedFinalRow c10em with sky_match_id := "sky-2" }] ∧
    "sky-1" ∉
      (merge_data_matches [c10em] [c10s1, c10s2]).map (·.sky_match_id) := by
  have h := c10_sky_backfill_overwrites [] [] c10em c10s1 c10s2
    (by intro m hm; cases hm) (by decide) (by decide) (by decide) (by decide)
    (by decide) (by decide)
  exact ⟨h.1, h.2⟩
